import Mathlib

/-!
Shallow embedding of the deterministic SKU matching engine of
`src/services/PDFGenerationService.ts` (class `DeterministicMappingService`),
together with the configuration defaults of `src/services/ConfigService.ts`
and the data model of `src/domain/entities/{SKU,RFQRun}.ts`.

Modelling conventions:
* JavaScript numbers are modelled as exact rationals (`ℚ`).
* Optional TS fields (`x?: T`) are modelled as `Option T`; JS truthiness on
  them (`if (x)`) is modelled by `optNumTruthy` / `optStrTruthy`, which treat
  `0` and `""` as falsy exactly as JS does.
* `Array.prototype.sort` with comparator `(a, b) => b.score - a.score` is,
  per the ECMAScript specification, a stable sort consistent with that
  comparator; it is modelled by the stable insertion sort `sortByScoreDesc`.
* The `Map` field `aliases` is modelled as an association list with `find?`
  lookup (`aliasesGet`).
* `fast-levenshtein`'s `levenshtein.get` is the classic unit-cost edit
  distance, modelled by `lev` on character lists.
-/

namespace SkuMatching

/-- JS truthiness of an optional number: `undefined` and `0` are falsy. -/
def optNumTruthy : Option ℚ → Bool
  | none => false
  | some q => q != 0

/-- JS truthiness of an optional string: `undefined` and `""` are falsy. -/
def optStrTruthy : Option String → Bool
  | none => false
  | some s => s != ""

/-- Is `c` one of the characters matched by the regex class of JS `\s`
(restricted to its ASCII members, the only ones arising in this data)? -/
def isWs (c : Char) : Bool :=
  c = ' ' || c = '\t' || c = '\n' || c = '\r' || c = '\x0b' || c = '\x0c'

/-- ASCII lower-casing of one character (JS `toLowerCase` restricted to the
ASCII range this catalog data lives in). -/
def charLower (c : Char) : Char :=
  if 'A' ≤ c ∧ c ≤ 'Z' then Char.ofNat (c.toNat + 32) else c

/-- ASCII upper-casing of one character (JS `toUpperCase`, ASCII range). -/
def charUpper (c : Char) : Char :=
  if 'a' ≤ c ∧ c ≤ 'z' then Char.ofNat (c.toNat - 32) else c

/-- JS `s.toLowerCase()` (ASCII). -/
def strLower (s : String) : String := ⟨s.data.map charLower⟩

/-- JS `s.toUpperCase()` (ASCII). -/
def strUpper (s : String) : String := ⟨s.data.map charUpper⟩

/-- JS `s.trim()`: strip leading and trailing whitespace. -/
def strTrim (s : String) : String :=
  ⟨((s.data.dropWhile isWs).reverse.dropWhile isWs).reverse⟩

/-- Substring containment on character lists: does `hay` contain `sub` as a
contiguous run (JS `String.prototype.includes`)?  The empty needle is always
contained, as in JS. -/
def listContains (sub : List Char) : List Char → Bool
  | [] => sub.isEmpty
  | c :: rest => sub.isPrefixOf (c :: rest) || listContains sub rest

/-- JS `hay.includes(sub)` on strings. -/
def strIncludes (hay sub : String) : Bool :=
  listContains sub.data hay.data

/-- `MappingConfig` of PDFGenerationService.ts. -/
structure MappingConfig where
  auto_map_threshold : ℚ
  confidence_delta : ℚ
  size_tolerance_mm : ℚ
  fuzzy_weight : ℚ
  size_weight : ℚ
  material_weight : ℚ
  alias_weight : ℚ
deriving DecidableEq, Repr

/-- The default mapping configuration of `ConfigService.loadConfig` (the
values used when `data/config.json` is unavailable). -/
def defaultMappingConfig : MappingConfig where
  auto_map_threshold := 0.85
  confidence_delta := 0.12
  size_tolerance_mm := 2.0
  fuzzy_weight := 0.6
  size_weight := 0.3
  material_weight := 0.1
  alias_weight := 0.1

/-- `SKU` of domain/entities/SKU.ts (the fields read by the matching engine;
pricing fields such as `rateInr`, `moq`, `hsnCode` are not consulted by any
function modelled here and are elided). -/
structure SKU where
  skuCode : String
  productFamily : String
  description : String
  material : String
  gauge : Option String := none
  sizeOdMm : Option ℚ := none
  altMaterial : Option String := none
  toleranceMm : Option ℚ := none
deriving DecidableEq, Repr

/-- The `normalized` projection of `ParsedLineItem` (RFQRun.ts).  In TS the
whole object may be absent; an absent object makes every optional read
(`line.normalized?.x`) yield `undefined`, which coincides with the record in
which every field is `none`. -/
structure NormalizedLine where
  size_mm : Option ℚ := none
  material : Option String := none
  color : Option String := none
  gauge : Option String := none
deriving DecidableEq, Repr

/-- `ParsedLineItem` of RFQRun.ts (the fields the matching engine reads:
`input_text` and the normalized projection; `qty`, `uom` and `raw_tokens`
are not consulted by the candidate pipeline once normalization has run). -/
structure ParsedLineItem where
  input_text : String
  normalized : NormalizedLine := {}
deriving DecidableEq, Repr

/-- Per-SKU alias entry (`AliasEntry` of PDFGenerationService.ts). -/
structure AliasEntry where
  «alias» : String
  boost : ℚ
deriving DecidableEq, Repr

/-- Score breakdown carried by a candidate. -/
structure ScoreBreakdown where
  fuzzy_score : ℚ
  size_score : ℚ
  material_score : ℚ
  alias_score : ℚ
deriving DecidableEq, Repr

/-- `SKUCandidate` of PDFGenerationService.ts. -/
structure SKUCandidate where
  sku : SKU
  score : ℚ
  reasons : List String
  breakdown : ScoreBreakdown
deriving DecidableEq, Repr

/-- Confidence levels; `failed` occurs only as the pseudo-level passed to
`createExplanation` from the empty-candidates branch. -/
inductive Confidence where
  | high | medium | low | failed
deriving DecidableEq, Repr

/-- Mapping statuses of `MappedLineItem.mapping_result.status`. -/
inductive MappingStatus where
  | auto_mapped | needs_review | failed
deriving DecidableEq, Repr

/-- The `scores` record inside `MappingExplanation` (RFQRun.ts). -/
structure ScoreRecord where
  fuzzy_score : ℚ
  size_score : ℚ
  material_score : ℚ
  alias_score : ℚ
  total_score : ℚ
deriving DecidableEq, Repr

/-- The `tolerances` record inside `MappingExplanation` (RFQRun.ts). -/
structure ToleranceRecord where
  size_tolerance_mm : Option ℚ
  material_match : Option Bool
deriving DecidableEq, Repr

/-- `MappingExplanation` of RFQRun.ts.  Its `confidence` field can only be
`high`/`medium`/`low` (`createExplanation` maps `failed` to `low`). -/
structure MappingExplanation where
  matched_fields : List String
  scores : ScoreRecord
  tolerances : ToleranceRecord
  assumptions : List String
  confidence : Confidence
  needs_review : Bool
deriving DecidableEq, Repr

/-- One entry of `mapping_result.candidates` (code, score, joined reasons). -/
structure CandidateRef where
  sku_code : String
  score : ℚ
  reason : String
deriving DecidableEq, Repr

/-- `MappedLineItem.mapping_result` of RFQRun.ts. -/
structure MappingResult where
  status : MappingStatus
  selected_sku : Option String
  candidates : List CandidateRef
  explanation : MappingExplanation
deriving DecidableEq, Repr

/-- The engine state: configuration plus the per-SKU alias index
(`DeterministicMappingService.config` / `.aliases`).  The alias `Map` is
modelled as an association list keyed by SKU code. -/
structure DeterministicMappingService where
  config : MappingConfig
  aliases : List (String × List AliasEntry)
deriving DecidableEq, Repr

/-- `Map.prototype.get` on the alias index. -/
def aliasesGet (m : List (String × List AliasEntry)) (k : String) :
    Option (List AliasEntry) :=
  (m.find? (fun p => p.1 == k)).map Prod.snd

/-! ### Normalizer (`normalizeMaterial`, `getProductFamily`) -/

/-- The closed set of canonical material codes named by the specification. -/
def closedMaterialCodes : List String :=
  ["PVC", "PP", "FRPP", "FR", "MS", "NYLON", "HDPE", "LDPE"]

/-- `normalizeMaterial` of PDFGenerationService.ts: substring rules over the
lower-cased trimmed token, FRPP first, falling back to the upper-cased raw
token when nothing matches. -/
def normalizeMaterial (material : String) : String :=
  let lower := strTrim (strLower material)
  if strIncludes lower "frpp" || strIncludes lower "fr-pp" ||
      (strIncludes lower "fr" && strIncludes lower "pp") then "FRPP"
  else if strIncludes lower "pvc" then "PVC"
  else if strIncludes lower "nylon" then "NYLON"
  else if strIncludes lower "hdpe" then "HDPE"
  else if strIncludes lower "ldpe" then "LDPE"
  else if strIncludes lower "ms" || strIncludes lower "gi" ||
      strIncludes lower "galvanized" then "MS"
  else if strIncludes lower "pp" || strIncludes lower "polypropylene" then "PP"
  else if strIncludes lower "fr" && !(strIncludes lower "pp") then "FR"
  else strUpper material

/-- `getProductFamily` of PDFGenerationService.ts: keyword rules over the
lower-cased description. -/
def getProductFamily (description : String) : String :=
  let desc := strLower description
  if strIncludes desc "corrugated" || strIncludes desc "flexible" ||
      strIncludes desc "cfp" then "Corrugated Flexible Pipe"
  else if strIncludes desc "pvc" && strIncludes desc "conduit" then "Rigid PVC Conduit"
  else if strIncludes desc "fan" && strIncludes desc "box" then "GI Fan Box"
  else if strIncludes desc "modular" || strIncludes desc "switch" ||
      strIncludes desc "msb" then "MS Box"
  else if strIncludes desc "cable" && strIncludes desc "gland" then "Cable Gland"
  else if strIncludes desc "cable" &&
      (strIncludes desc "tie" || strIncludes desc "ties") then "Cable Tie"
  else if strIncludes desc "junction" && strIncludes desc "box" then "GI Junction Box"
  else if strIncludes desc "clamp" || strIncludes desc "saddle" then "Accessories"
  else "Unknown"

/-! ### Fuzzy score (`fast-levenshtein` and `calculateFuzzyScore`) -/

/-- Classic unit-cost Levenshtein edit distance (the function computed by
`fast-levenshtein`'s `levenshtein.get`). -/
def lev : List Char → List Char → Nat
  | [], b => b.length
  | x :: xs, [] => (x :: xs).length
  | x :: xs, y :: ys =>
    if x = y then lev xs ys
    else 1 + min (lev xs (y :: ys)) (min (lev (x :: xs) ys) (lev xs ys))
termination_by a b => a.length + b.length
decreasing_by all_goals simp_arith

/-- `calculateFuzzyScore`: normalized edit-distance similarity between the
input text and the SKU description, both lower-cased.  (`sku.description`
is a required string field, so the JS guard `sku.description || ''` is the
identity and is elided.) -/
def calculateFuzzyScore (input : String) (sku : SKU) : ℚ :=
  let inputLower := strLower input
  let skuDescription := strLower sku.description
  let distance := lev inputLower.data skuDescription.data
  let maxLength := max inputLower.length skuDescription.length
  if maxLength > 0 then 1 - (distance : ℚ) / (maxLength : ℚ) else 0

/-! ### Size and material scores -/

/-- `calculateSizeScore`: tiered by absolute size difference against the
configured global tolerance.  JS numeric truthiness makes a `0` size count
as missing. -/
def calculateSizeScore (svc : DeterministicMappingService)
    (line : ParsedLineItem) (sku : SKU) : ℚ :=
  let inputSize := line.normalized.size_mm
  let skuSize := sku.sizeOdMm
  if optNumTruthy inputSize = false ∨ optNumTruthy skuSize = false then 0
  else
    let sizeDiff := |inputSize.getD 0 - skuSize.getD 0|
    if sizeDiff ≤ svc.config.size_tolerance_mm then 1.0
    else if sizeDiff ≤ svc.config.size_tolerance_mm * 2 then 0.7
    else if sizeDiff ≤ svc.config.size_tolerance_mm * 4 then 0.3
    else 0

/-- `calculateMaterialScore`: 0.5 when both materials are unset, 0.2 when
exactly one is, otherwise case-insensitive equality scored 1.0/0, refined by
the gauge rule for the Rigid PVC Conduit family (applied only when both
gauges are present and truthy). -/
def calculateMaterialScore (line : ParsedLineItem) (sku : SKU) : ℚ :=
  let inputMaterial := line.normalized.material
  let skuMaterial := sku.material
  if optStrTruthy inputMaterial = false ∧ skuMaterial = "" then 0.5
  else if optStrTruthy inputMaterial = false ∨ skuMaterial = "" then 0.2
  else
    let materialScore : ℚ :=
      if strLower (inputMaterial.getD "") = strLower skuMaterial then 1.0 else 0
    if sku.productFamily = "Rigid PVC Conduit" ∧ materialScore > 0 then
      let inputGauge := line.normalized.gauge
      let skuGauge := sku.gauge
      if optStrTruthy inputGauge = true ∧ optStrTruthy skuGauge = true then
        if inputGauge = skuGauge then 1.0 else 0.7
      else materialScore
    else materialScore

/-! ### Alias score (`calculateAliasScore`) -/

/-- Collapse each maximal run of whitespace to its first character (helper
for modelling `split(/\s+/)`). -/
def squeezeWs : List Char → List Char
  | [] => []
  | [c] => [c]
  | a :: b :: rest =>
    if isWs a ∧ isWs b then squeezeWs (b :: rest)
    else a :: squeezeWs (b :: rest)

/-- Split at every whitespace character (after squeezing, each split point
is a maximal run, which is `split(/\s+/)` semantics: empty leading/trailing
pieces are kept, interior runs produce single cuts). -/
def splitAtWs : List Char → List (List Char)
  | [] => [[]]
  | c :: rest =>
    if isWs c then [] :: splitAtWs rest
    else
      match splitAtWs rest with
      | [] => [[c]]
      | w :: ws => (c :: w) :: ws

/-- JS `str.split(/\s+/)`. -/
def splitWs (s : String) : List String :=
  (splitAtWs (squeezeWs s.data)).map List.asString

/-- JS `str.replace(/[^a-z0-9]/g, '')`. -/
def stripNonAlnum (s : String) : String :=
  (s.data.filter (fun c => ('a' ≤ c ∧ c ≤ 'z') ∨ ('0' ≤ c ∧ c ≤ '9'))).asString

/-- The body of `calculateAliasScore`'s loop over one alias entry: fold the
running maximum through the word-ratio rule and the substring rule. -/
def aliasAccum (inputLower : String) (maxAliasScore : ℚ) (aliasEntry : AliasEntry) : ℚ :=
  let aliasWords := splitWs aliasEntry.alias
  let inputWords := splitWs inputLower
  let wordMatches := (aliasWords.filter (fun aliasWord =>
    inputWords.any (fun inputWord =>
      strIncludes inputWord aliasWord || strIncludes aliasWord inputWord))).length
  let afterWords :=
    if wordMatches > 0 then
      let matchFrac : ℚ := (wordMatches : ℚ) / (aliasWords.length : ℚ)
      max maxAliasScore (matchFrac * aliasEntry.boost)
    else maxAliasScore
  if strIncludes inputLower aliasEntry.alias ||
      strIncludes aliasEntry.alias (stripNonAlnum inputLower) then
    max afterWords (aliasEntry.boost * 0.8)
  else afterWords

/-- `calculateAliasScore`: best alias evidence for the SKU, capped at 1.0.
A SKU with no alias entry scores 0. -/
def calculateAliasScore (svc : DeterministicMappingService)
    (input : String) (sku : SKU) : ℚ :=
  let inputLower := strLower input
  match aliasesGet svc.aliases sku.skuCode with
  | none => 0
  | some skuAliases => min (skuAliases.foldl (aliasAccum inputLower) 0) 1.0

/-! ### Hard constraints -/

/-- `isMaterialCompatible`: direct match against material or alternate
material, else the Corrugated-Flexible-Pipe hierarchy. -/
def isMaterialCompatible (inputMaterial : String) (sku : SKU) : Bool :=
  let input := strUpper inputMaterial
  let skuMaterial := strUpper sku.material
  let skuAltMaterial := sku.altMaterial.map strUpper
  if input = skuMaterial ∨ skuAltMaterial = some input then true
  else if sku.productFamily = "Corrugated Flexible Pipe" then
    if input = "FRPP" ∧ (skuMaterial = "PP" ∨ skuAltMaterial = some "FRPP") then true
    else if input = "FR" ∧ (skuMaterial = "PP" ∨ skuAltMaterial = some "FRPP") then true
    else if input = "PP" ∧ skuMaterial = "PP" then true
    else false
  else false

/-- `passesHardConstraints`: family, size-tolerance and material-compatibility
gates, written as the source's early-return chain.  The size gate uses the
SKU's own tolerance when truthy (`sku.toleranceMm || config.size_tolerance_mm`). -/
def passesHardConstraints (svc : DeterministicMappingService)
    (line : ParsedLineItem) (sku : SKU) (inputFamily : String) : Bool :=
  if inputFamily ≠ "Unknown" ∧ sku.productFamily ≠ inputFamily then false
  else if optNumTruthy line.normalized.size_mm = true ∧ optNumTruthy sku.sizeOdMm = true ∧
      |line.normalized.size_mm.getD 0 - sku.sizeOdMm.getD 0| >
        (if optNumTruthy sku.toleranceMm = true then sku.toleranceMm.getD 0
         else svc.config.size_tolerance_mm) then false
  else if optStrTruthy line.normalized.material = true ∧ sku.material ≠ "" ∧
      isMaterialCompatible (line.normalized.material.getD "") sku = false then false
  else true

/-! ### Candidate scoring and ranking -/

/-- Reason string for a fuzzy match.  The source interpolates the formatted
percentage `(fuzzyScore*100).toFixed(1)`; the numeric formatting is
abstracted since no consumer inspects it. -/
def fuzzyReason (_fuzzyScore : ℚ) : String :=
  "Description similarity"

/-- `scoreSKUMatch`: the four sub-scores, their reason strings, and the
weighted total capped at 1.0. -/
def scoreSKUMatch (svc : DeterministicMappingService)
    (line : ParsedLineItem) (sku : SKU) : SKUCandidate :=
  let fuzzyScore := calculateFuzzyScore line.input_text sku
  let sizeScore := calculateSizeScore svc line sku
  let materialScore := calculateMaterialScore line sku
  let aliasScore := calculateAliasScore svc line.input_text sku
  let reasons :=
    (if fuzzyScore > 0.5 then [fuzzyReason fuzzyScore] else []) ++
    (if sizeScore > 0.8 then ["Size match within tolerance"]
     else if sizeScore > 0.5 then ["Partial size match"] else []) ++
    (if materialScore > 0.9 then ["Exact material match"]
     else if materialScore > 0.5 then ["Material similarity"] else []) ++
    (if aliasScore > 0.5 then ["Alias match detected"] else [])
  let totalScore :=
    fuzzyScore * svc.config.fuzzy_weight +
    sizeScore * svc.config.size_weight +
    materialScore * svc.config.material_weight +
    aliasScore * svc.config.alias_weight
  { sku := sku
    score := min totalScore 1.0
    reasons := reasons
    breakdown :=
      { fuzzy_score := fuzzyScore
        size_score := sizeScore
        material_score := materialScore
        alias_score := aliasScore } }

/-- Stable descending insertion: place `c` before the first element whose
score is not greater than `c`'s, keeping earlier equal-scored elements
earlier. -/
def insertDesc (c : SKUCandidate) : List SKUCandidate → List SKUCandidate
  | [] => [c]
  | x :: xs => if x.score ≤ c.score then c :: x :: xs else x :: insertDesc c xs

/-- Stable sort by descending score: the extensional behaviour mandated by
ECMAScript for `candidates.sort((a, b) => b.score - a.score)`. -/
def sortByScoreDesc : List SKUCandidate → List SKUCandidate
  | [] => []
  | c :: rest => insertDesc c (sortByScoreDesc rest)

/-- The loop body of `findCandidates` before sorting: hard-constraint gate,
score, and the `score > 0.1` cut, in catalog iteration order. -/
def rawCandidates (svc : DeterministicMappingService)
    (line : ParsedLineItem) (skuCatalog : List SKU) : List SKUCandidate :=
  let inputFamily := getProductFamily line.input_text
  skuCatalog.filterMap (fun sku =>
    if passesHardConstraints svc line sku inputFamily then
      let candidate := scoreSKUMatch svc line sku
      if candidate.score > 0.1 then some candidate else none
    else none)

/-- `findCandidates`: admissible scored candidates, sorted by descending
score. -/
def findCandidates (svc : DeterministicMappingService)
    (line : ParsedLineItem) (skuCatalog : List SKU) : List SKUCandidate :=
  sortByScoreDesc (rawCandidates svc line skuCatalog)

/-! ### Decision engine -/

/-- `calculateConfidence`.  `secondScore` is an optional number, so the JS
guard `!secondScore` is numeric truthiness (a second score of `0` counts as
absent). -/
def calculateConfidence (svc : DeterministicMappingService)
    (topScore : ℚ) (secondScore : Option ℚ) : Confidence :=
  if topScore ≥ svc.config.auto_map_threshold ∧
      (optNumTruthy secondScore = false ∨
        topScore - secondScore.getD 0 ≥ svc.config.confidence_delta) then .high
  else if topScore ≥ 0.6 then .medium
  else .low

/-- `getMatchedFields`: field names whose sub-score exceeds 0.5, in source
push order. -/
def getMatchedFields (candidate : SKUCandidate) : List String :=
  (if candidate.breakdown.fuzzy_score > 0.5 then ["description"] else []) ++
  (if candidate.breakdown.size_score > 0.5 then ["size"] else []) ++
  (if candidate.breakdown.material_score > 0.5 then ["material"] else []) ++
  (if candidate.breakdown.alias_score > 0.5 then ["aliases"] else [])

/-- `createExplanation`: explanation record built from the top candidate (if
any); `failed` confidence is surfaced as `low`; the record's own
`needs_review` flag looks only at the absolute threshold. -/
def createExplanation (svc : DeterministicMappingService)
    (candidates : List SKUCandidate) (confidence : Confidence)
    (assumptions : List String) : MappingExplanation :=
  let topCandidate := candidates.head?
  { matched_fields :=
      match topCandidate with
      | some c => getMatchedFields c
      | none => []
    scores :=
      match topCandidate with
      | some c =>
        { fuzzy_score := c.breakdown.fuzzy_score
          size_score := c.breakdown.size_score
          material_score := c.breakdown.material_score
          alias_score := c.breakdown.alias_score
          total_score := c.score }
      | none =>
        { fuzzy_score := 0, size_score := 0, material_score := 0
          alias_score := 0, total_score := 0 }
    tolerances :=
      { size_tolerance_mm := some svc.config.size_tolerance_mm
        material_match := some
          (match topCandidate with
           | some c => decide (c.breakdown.material_score > 0.9)
           | none => false) }
    assumptions := assumptions
    confidence := if confidence = .failed then .low else confidence
    needs_review :=
      decide (confidence = .failed) || topCandidate.isNone ||
      (match topCandidate with
       | some c => decide (c.score < svc.config.auto_map_threshold)
       | none => false) }

/-- `decideMappingResult`: the threshold/margin decision policy over the
sorted candidate list.  The `_line` argument is unused in the source as
well. -/
def decideMappingResult (svc : DeterministicMappingService)
    (candidates : List SKUCandidate) (_line : ParsedLineItem) : MappingResult :=
  match candidates with
  | [] =>
    { status := .failed
      selected_sku := none
      candidates := []
      explanation := createExplanation svc [] .failed
        ["No suitable SKU candidates found",
         "Consider checking product catalog or input format"] }
  | topCandidate :: rest =>
    let secondCandidate := rest.head?
    let confidence :=
      calculateConfidence svc topCandidate.score (secondCandidate.map (·.score))
    let needsReview : Bool :=
      decide (topCandidate.score < svc.config.auto_map_threshold) ||
      (match secondCandidate with
       | some second =>
         decide (topCandidate.score - second.score < svc.config.confidence_delta)
       | none => false)
    let status := if needsReview then MappingStatus.needs_review else .auto_mapped
    let selectedSku := if needsReview then none else some topCandidate.sku.skuCode
    { status := status
      selected_sku := selectedSku
      candidates := ((topCandidate :: rest).take 3).map (fun c =>
        { sku_code := c.sku.skuCode
          score := c.score
          reason := String.intercalate "; " c.reasons })
      explanation :=
        createExplanation svc (topCandidate :: rest) confidence topCandidate.reasons }

/-! ### Concrete sample inputs used by the witnesses and counterexamples -/

/-- An engine instance with the default configuration and an empty alias
index (the alias table is data-file dependent; all theorems below are
parametric in it). -/
def svcDefault : DeterministicMappingService :=
  { config := defaultMappingConfig, aliases := [] }

/-- A neutral request line whose text triggers no family keyword and whose
normalized projection is empty. -/
def sampleLine : ParsedLineItem :=
  { input_text := "qq" }

/-- A throwaway SKU used to build candidates with prescribed scores. -/
def sampleSKU (code : String) : SKU :=
  { skuCode := code, productFamily := "F", description := "d", material := "PVC" }

/-- A candidate with a prescribed total score (breakdown values are not
consulted by the decision policy). -/
def mkCand (code : String) (q : ℚ) : SKUCandidate :=
  { sku := sampleSKU code
    score := q
    reasons := []
    breakdown :=
      { fuzzy_score := q, size_score := q, material_score := q, alias_score := q } }

/-- Line with a normalized size of 25 mm (used against `skuC2`). -/
def lineC2 : ParsedLineItem :=
  { input_text := "qq", normalized := { size_mm := some 25 } }

/-- SKU with nominal size 30 mm and its own tolerance of 3 mm. -/
def skuC2 : SKU :=
  { skuCode := "S2", productFamily := "F", description := "d", material := "PVC"
    sizeOdMm := some 30, toleranceMm := some 3 }

/-- Line with a normalized size of 25 mm (used against `skuD3`, difference 3 mm). -/
def lineD3 : ParsedLineItem :=
  { input_text := "qq", normalized := { size_mm := some 25 } }

/-- SKU with nominal size 28 mm and no tolerance of its own. -/
def skuD3 : SKU :=
  { skuCode := "S3", productFamily := "F", description := "d", material := "PVC"
    sizeOdMm := some 28 }

/-- Line normalized to material PVC, with no gauge. -/
def lineC4 : ParsedLineItem :=
  { input_text := "qq", normalized := { material := some "PVC" } }

/-- Line normalized to material PVC and gauge L. -/
def lineC4g : ParsedLineItem :=
  { input_text := "qq", normalized := { material := some "PVC", gauge := some "L" } }

/-- Rigid-PVC-Conduit SKU in material PVC, gauge M. -/
def skuC4 : SKU :=
  { skuCode := "S4", productFamily := "Rigid PVC Conduit", description := "d"
    material := "PVC", gauge := some "M" }

/-! ## C7 — empty candidate list -/

/-- C7 (amended): deciding on an empty candidate list — in particular against
an empty catalog — returns status `failed` with an empty candidate list, and
the explanation's assumptions carry the string "No suitable SKU candidates
found"; the decision function is total, so no exception can arise. -/
theorem C7_empty_candidates_failed (svc : DeterministicMappingService)
    (line : ParsedLineItem) :
    findCandidates svc line [] = [] ∧
    (decideMappingResult svc [] line).status = .failed ∧
    (decideMappingResult svc [] line).candidates = [] ∧
    "No suitable SKU candidates found" ∈
      (decideMappingResult svc [] line).explanation.assumptions := by
  refine ⟨rfl, rfl, rfl, ?_⟩
  simp [decideMappingResult, createExplanation]

/-- C7 counterexample to the claim's quoted wording: the assumptions list is
exactly the two source strings, and the lowercase phrase quoted by the claim
is not among them. -/
theorem C7_assumption_wording_counterexample :
    (decideMappingResult svcDefault [] sampleLine).explanation.assumptions =
      ["No suitable SKU candidates found",
       "Consider checking product catalog or input format"] ∧
    "no suitable candidates found" ∉
      (decideMappingResult svcDefault [] sampleLine).explanation.assumptions := by
  decide

/-! ## C8 — material normalization -/

/-- C8 (amended): `normalizeMaterial` is total and maps every token either to
one of the closed material codes or to the upper-cased raw token (never to
`undefined`); when the FR and PP markers co-occur the result is `FRPP`,
preferentially over `PP`. -/
theorem C8_normalizeMaterial_closed_or_upper (s : String) :
    (normalizeMaterial s ∈ closedMaterialCodes ∨ normalizeMaterial s = strUpper s) ∧
    (strIncludes (strTrim (strLower s)) "fr" = true → strIncludes (strTrim (strLower s)) "pp" = true →
      normalizeMaterial s = "FRPP") := by
  constructor
  · simp only [normalizeMaterial, closedMaterialCodes]
    split_ifs <;> simp
  · intro h1 h2
    simp only [normalizeMaterial]
    simp [h1, h2]

/-- Witness for C8: a token containing both markers normalizes to FRPP. -/
theorem C8_normalizeMaterial_witness :
    strIncludes (strTrim (strLower "fr pp")) "fr" = true ∧ normalizeMaterial "fr pp" = "FRPP" :=
  ⟨by decide, (C8_normalizeMaterial_closed_or_upper "fr pp").2 (by decide) (by decide)⟩

/-- C8 counterexample: an unrecognized token yields the upper-cased input,
which is outside the closed set — not `undefined`. -/
theorem C8_unparseable_counterexample :
    normalizeMaterial "steel" = "STEEL" ∧ "STEEL" ∉ closedMaterialCodes := by
  decide

/-! ## C2 — size sub-score tiering -/

/-- The size sub-score as the claim words it: tiering relative to the SKU's
own tolerance when set, else the global default.  (Spec-following
definition, for comparison with `calculateSizeScore`.) -/
def sizeScoreClaimed (svc : DeterministicMappingService)
    (line : ParsedLineItem) (sku : SKU) : ℚ :=
  match line.normalized.size_mm, sku.sizeOdMm with
  | some lineSize, some skuSize =>
    let t := match sku.toleranceMm with
      | some tol => tol
      | none => svc.config.size_tolerance_mm
    let d := |lineSize - skuSize|
    if d ≤ t then 1.0 else if d ≤ t * 2 then 0.7 else if d ≤ t * 4 then 0.3 else 0
  | _, _ => 0

/-- C2 counterexample: with the SKU's own tolerance 3 mm, global default
2 mm and size difference 5 mm, the claim's tiering (t = 3) predicts 0.7 but
the code scores 0.3 — the size sub-score uses only the global tolerance. -/
theorem C2_own_tolerance_counterexample :
    calculateSizeScore svcDefault lineC2 skuC2 = 0.3 ∧
    sizeScoreClaimed svcDefault lineC2 skuC2 = 0.7 ∧
    calculateSizeScore svcDefault lineC2 skuC2 ≠ sizeScoreClaimed svcDefault lineC2 skuC2 := by
  refine ⟨by with_unfolding_all decide, by with_unfolding_all decide,
    by with_unfolding_all decide⟩

/-- C2 (amended): for truthy sizes the size sub-score is tiered by the
absolute difference against the *global default* tolerance `t` —
`≤ t → 1.0`, `≤ 2t → 0.7`, `≤ 4t → 0.3`, else `0` — regardless of the SKU's
own tolerance, which affects only the hard-constraint filter; if either size
is missing (or zero, which JS truthiness treats as missing) the sub-score is
`0`. -/
theorem C2_size_score_tiering (svc : DeterministicMappingService)
    (line : ParsedLineItem) (sku : SKU) (lineSize skuSize : ℚ)
    (hl : line.normalized.size_mm = some lineSize) (hl0 : lineSize ≠ 0)
    (hs : sku.sizeOdMm = some skuSize) (hs0 : skuSize ≠ 0) :
    calculateSizeScore svc line sku =
      (let t := svc.config.size_tolerance_mm
       let d := |lineSize - skuSize|
       if d ≤ t then 1.0 else if d ≤ t * 2 then 0.7 else if d ≤ t * 4 then 0.3 else 0) ∧
    ∀ line2 : ParsedLineItem, ∀ sku2 : SKU,
      optNumTruthy line2.normalized.size_mm = false ∨ optNumTruthy sku2.sizeOdMm = false →
      calculateSizeScore svc line2 sku2 = 0 := by
  constructor
  · simp only [calculateSizeScore, hl, hs, optNumTruthy, Option.getD]
    simp [hl0, hs0]
  · intro line2 sku2 h
    simp only [calculateSizeScore]
    simp [h]

/-- Witness for C2: sizes 25 mm and 28 mm against the default tolerance of
2 mm fall in the second tier and score 0.7. -/
theorem C2_size_score_tiering_witness :
    lineD3.normalized.size_mm = some 25 ∧ skuD3.sizeOdMm = some 28 ∧
    calculateSizeScore svcDefault lineD3 skuD3 = 0.7 :=
  ⟨rfl, rfl, by
    have h := (C2_size_score_tiering svcDefault lineD3 skuD3 25 28 rfl
      (by norm_num) rfl (by norm_num)).1
    rw [h]; with_unfolding_all decide⟩

/-! ## C4 — material sub-score -/

/-- C4 counterexample: a Rigid-PVC-Conduit SKU with gauge M against a line
with matching material but *no* gauge scores 1.0 even though gauge equality
does not hold — the gauge refinement only fires when both gauges are
truthy. -/
theorem C4_missing_gauge_counterexample :
    calculateMaterialScore lineC4 skuC4 = 1.0 ∧
    lineC4.normalized.gauge ≠ skuC4.gauge ∧
    skuC4.productFamily = "Rigid PVC Conduit" := by
  refine ⟨by with_unfolding_all decide, by decide, rfl⟩

/-- C4 (amended): the material sub-score is 1.0 on an exact
(case-insensitive) material match, 0.5 when both sides are unset, 0.2 when
exactly one side is unset, and 0 on a mismatch; for the Rigid PVC Conduit
family the gauge refinement applies only when *both* the line and the SKU
carry a truthy gauge — equal gauges keep 1.0, unequal gauges score 0.7, and
a missing gauge leaves the match at 1.0. -/
theorem C4_material_score_cases (line : ParsedLineItem) (sku : SKU) :
    (optStrTruthy line.normalized.material = false ∧ sku.material = "" →
      calculateMaterialScore line sku = 0.5) ∧
    ((optStrTruthy line.normalized.material = true ∧ sku.material = "") ∨
     (optStrTruthy line.normalized.material = false ∧ sku.material ≠ "") →
      calculateMaterialScore line sku = 0.2) ∧
    (optStrTruthy line.normalized.material = true → sku.material ≠ "" →
      strLower (line.normalized.material.getD "") = strLower sku.material →
      ((sku.productFamily = "Rigid PVC Conduit" →
        optStrTruthy line.normalized.gauge = true →
        optStrTruthy sku.gauge = true →
          calculateMaterialScore line sku =
            (if line.normalized.gauge = sku.gauge then 1.0 else 0.7)) ∧
       (sku.productFamily ≠ "Rigid PVC Conduit" ∨
        optStrTruthy line.normalized.gauge = false ∨ optStrTruthy sku.gauge = false →
          calculateMaterialScore line sku = 1.0))) ∧
    (optStrTruthy line.normalized.material = true → sku.material ≠ "" →
      strLower (line.normalized.material.getD "") ≠ strLower sku.material →
      calculateMaterialScore line sku = 0) := by
  refine ⟨?_, ?_, ?_, ?_⟩
  · rintro ⟨h1, h2⟩
    simp [calculateMaterialScore, h1, h2]
  · rintro (⟨h1, h2⟩ | ⟨h1, h2⟩) <;> simp [calculateMaterialScore, h1, h2]
  · intro h1 h2 heq
    have hm10 : (0:ℚ) < 1.0 := by norm_num
    have hm10' : ¬((1.0:ℚ) ≤ 0) := by norm_num
    constructor
    · intro hfam hg1 hg2
      simp [calculateMaterialScore, h1, h2, heq, hfam, hg1, hg2, hm10, hm10']
    · intro hcase
      by_cases hf : sku.productFamily = "Rigid PVC Conduit"
      · rcases hcase with hfam | hg | hg
        · exact absurd hf hfam
        · simp [calculateMaterialScore, h1, h2, heq, hf, hg, hm10, hm10']
        · simp [calculateMaterialScore, h1, h2, heq, hf, hg, hm10, hm10']
      · simp [calculateMaterialScore, h1, h2, heq, hf]
  · intro h1 h2 hne
    simp [calculateMaterialScore, h1, h2, hne]

/-- Witness for C4: material match with both gauges present and unequal
scores 0.7. -/
theorem C4_material_score_cases_witness :
    optStrTruthy lineC4g.normalized.material = true ∧
    calculateMaterialScore lineC4g skuC4 = 0.7 :=
  ⟨by decide, by
    have h := ((C4_material_score_cases lineC4g skuC4).2.2.1 (by decide) (by decide)
      (by decide)).1 rfl (by decide) (by decide)
    rw [h]; with_unfolding_all decide⟩

/-! ## Sorting lemmas (for C5 and C9) -/

/-- The head of an insertion is either the inserted element or the old head. -/
theorem insertDesc_head_eq (c : SKUCandidate) (l : List SKUCandidate) :
    (insertDesc c l).head? = some c ∨
      ((insertDesc c l).head? = l.head? ∧
        ∀ x ∈ l.head?, c.score ≤ x.score) := by
  cases l with
  | nil => left; rfl
  | cons x xs =>
    by_cases h : x.score ≤ c.score
    · left; simp [insertDesc, h]
    · right
      constructor
      · simp [insertDesc, h]
      · intro y hy
        simp at hy
        subst hy
        exact le_of_not_le h

/-- Insertion preserves descending sortedness. -/
theorem insertDesc_chain (c : SKUCandidate) (l : List SKUCandidate)
    (h : List.Chain' (fun a b => b.score ≤ a.score) l) :
    List.Chain' (fun a b => b.score ≤ a.score) (insertDesc c l) := by
  induction l with
  | nil => simp [insertDesc]
  | cons x xs ih =>
    by_cases hxc : x.score ≤ c.score
    · rw [insertDesc]
      simp only [if_pos hxc]
      exact List.chain'_cons.2 ⟨hxc, h⟩
    · rw [List.chain'_cons'] at h
      have htail := ih h.2
      rw [insertDesc]
      simp only [if_neg hxc]
      rw [List.chain'_cons']
      refine ⟨?_, htail⟩
      intro y hy
      rcases insertDesc_head_eq c xs with hc | ⟨hh, _⟩
      · rw [hc] at hy
        simp at hy
        subst hy
        exact le_of_not_le hxc
      · rw [hh] at hy
        exact h.1 y hy

/-- The sorted candidate list is descending in score. -/
theorem sortByScoreDesc_chain (l : List SKUCandidate) :
    List.Chain' (fun a b => b.score ≤ a.score) (sortByScoreDesc l) := by
  induction l with
  | nil => simp [sortByScoreDesc]
  | cons c cs ih => exact insertDesc_chain c _ ih

/-- Elements skipped by the insertion all have strictly greater score, so
filtering on any fixed score value commutes with insertion. -/
theorem insertDesc_filter_score (c : SKUCandidate) (l : List SKUCandidate) (s : ℚ) :
    (insertDesc c l).filter (fun x => decide (x.score = s)) =
      if c.score = s then c :: l.filter (fun x => decide (x.score = s))
      else l.filter (fun x => decide (x.score = s)) := by
  induction l with
  | nil =>
    by_cases h : c.score = s <;> simp [insertDesc, List.filter, h]
  | cons x xs ih =>
    by_cases hxc : x.score ≤ c.score
    · rw [insertDesc]
      simp only [if_pos hxc]
      by_cases h : c.score = s <;> simp [List.filter_cons, h]
    · have hxs : x.score ≠ s ∨ ¬ c.score = s := by
        by_cases hcs : c.score = s
        · left
          intro hx
          exact hxc (le_of_eq (hx.trans hcs.symm))
        · right; exact hcs
      rw [insertDesc]
      simp only [if_neg hxc]
      by_cases hcs : c.score = s
      · have hx : ¬ x.score = s := by
          rcases hxs with h | h
          · exact h
          · exact absurd hcs h
        simp [List.filter_cons, hx, ih, hcs]
      · by_cases hx : x.score = s <;> simp [List.filter_cons, hx, ih, hcs]

/-- Stability: sorting does not disturb the relative order of equal-scored
candidates — the filter at each score value is unchanged. -/
theorem sortByScoreDesc_filter_score (l : List SKUCandidate) (s : ℚ) :
    (sortByScoreDesc l).filter (fun x => decide (x.score = s)) =
      l.filter (fun x => decide (x.score = s)) := by
  induction l with
  | nil => rfl
  | cons c cs ih =>
    rw [sortByScoreDesc, insertDesc_filter_score]
    by_cases h : c.score = s <;> simp [List.filter_cons, h, ih]

/-- Insertion adds exactly the inserted element to the members. -/
theorem mem_insertDesc {x c : SKUCandidate} {l : List SKUCandidate} :
    x ∈ insertDesc c l ↔ x = c ∨ x ∈ l := by
  induction l with
  | nil => simp [insertDesc]
  | cons y ys ih =>
    by_cases h : y.score ≤ c.score
    · simp [insertDesc, h]
    · simp [insertDesc, h, ih]
      tauto

/-- Sorting preserves membership. -/
theorem mem_sortByScoreDesc {x : SKUCandidate} {l : List SKUCandidate} :
    x ∈ sortByScoreDesc l ↔ x ∈ l := by
  induction l with
  | nil => simp [sortByScoreDesc]
  | cons c cs ih => simp [sortByScoreDesc, mem_insertDesc, ih]

/-! ## C5 — candidate list sorted descending, stable on ties -/

/-- C5: for every line and catalog, adjacent candidates satisfy
`candidates[i].score ≥ candidates[i+1].score`, and candidates of equal
score keep their catalog iteration order (the filter at each score value
coincides with the pre-sort admissible list, which is in catalog order). -/
theorem C5_candidates_sorted_stable (svc : DeterministicMappingService)
    (line : ParsedLineItem) (catalog : List SKU) :
    List.Chain' (fun a b => b.score ≤ a.score) (findCandidates svc line catalog) ∧
    ∀ s : ℚ, (findCandidates svc line catalog).filter (fun c => decide (c.score = s)) =
      (rawCandidates svc line catalog).filter (fun c => decide (c.score = s)) :=
  ⟨sortByScoreDesc_chain _, fun s => sortByScoreDesc_filter_score _ s⟩

/-! ## C9 — the 0.1 score cut can empty the candidate list -/

/-- A SKU that passes every hard constraint against `sampleLine` but scores
only 0.05 (material sub-score 0.5 at weight 0.1, all else 0). -/
def skuC9 : SKU :=
  { skuCode := "S9", productFamily := "F", description := "x", material := "" }

/-- A SKU whose description equals `sampleLine`'s text, scoring 0.65. -/
def skuW : SKU :=
  { skuCode := "W", productFamily := "F", description := "qq", material := "" }

/-- C9: every emitted candidate has total score strictly above 0.1, and
there are a line and a catalog (here `sampleLine` against `[skuC9]`) whose
only SKU is admissible — it passes the hard constraints — yet the candidate
list is empty and the mapping result is `failed`. -/
theorem C9_low_score_cut (svc : DeterministicMappingService)
    (line : ParsedLineItem) (catalog : List SKU) (c : SKUCandidate)
    (hc : c ∈ findCandidates svc line catalog) :
    (0.1 : ℚ) < c.score ∧
    (passesHardConstraints svcDefault sampleLine skuC9
        (getProductFamily sampleLine.input_text) = true ∧
      findCandidates svcDefault sampleLine [skuC9] = [] ∧
      (decideMappingResult svcDefault (findCandidates svcDefault sampleLine [skuC9])
          sampleLine).status = .failed) := by
  refine ⟨?_, by decide, by with_unfolding_all decide, by with_unfolding_all decide⟩
  rw [findCandidates, mem_sortByScoreDesc, rawCandidates, List.mem_filterMap] at hc
  obtain ⟨sku, _, hsku⟩ := hc
  by_cases hpass : passesHardConstraints svc line sku (getProductFamily line.input_text)
  · rw [if_pos hpass] at hsku
    by_cases hcut : (scoreSKUMatch svc line sku).score > 0.1
    · rw [if_pos hcut] at hsku
      cases hsku
      exact hcut
    · rw [if_neg hcut] at hsku
      cases hsku
  · rw [if_neg hpass] at hsku
    cases hsku

/-- Witness for C9: a concrete nonempty candidate list whose member the
theorem bounds away from 0.1. -/
theorem C9_low_score_cut_witness :
    scoreSKUMatch svcDefault sampleLine skuW ∈
      findCandidates svcDefault sampleLine [skuW] ∧
    (0.1 : ℚ) < (scoreSKUMatch svcDefault sampleLine skuW).score := by
  have hmem : scoreSKUMatch svcDefault sampleLine skuW ∈
      findCandidates svcDefault sampleLine [skuW] := by
    with_unfolding_all decide
  exact ⟨hmem, (C9_low_score_cut svcDefault sampleLine [skuW] _ hmem).1⟩

/-! ## C1 — threshold/margin decision policy -/

/-- C1: on a non-empty candidate list the status is `needs_review` exactly
when the top score is below the threshold or a second candidate sits within
the confidence delta, `auto_mapped` otherwise, and `selected_sku` is the top
SKU's code exactly when the status is `auto_mapped` (and absent exactly when
it is `needs_review`); with the default configuration, a sole 0.90 candidate
auto-maps while 0.90 followed by 0.82 needs review. -/
theorem C1_decision_policy (svc : DeterministicMappingService)
    (line : ParsedLineItem) (top : SKUCandidate) (rest : List SKUCandidate) :
    ((decideMappingResult svc (top :: rest) line).status = .needs_review ↔
      (top.score < svc.config.auto_map_threshold ∨
        ∃ second rest2, rest = second :: rest2 ∧
          top.score - second.score < svc.config.confidence_delta)) ∧
    ((decideMappingResult svc (top :: rest) line).status = .auto_mapped ↔
      ¬ (top.score < svc.config.auto_map_threshold ∨
        ∃ second rest2, rest = second :: rest2 ∧
          top.score - second.score < svc.config.confidence_delta)) ∧
    ((decideMappingResult svc (top :: rest) line).selected_sku = some top.sku.skuCode ↔
      (decideMappingResult svc (top :: rest) line).status = .auto_mapped) ∧
    ((decideMappingResult svc (top :: rest) line).selected_sku = none ↔
      (decideMappingResult svc (top :: rest) line).status = .needs_review) ∧
    (decideMappingResult svcDefault [mkCand "A" 0.9] sampleLine).status = .auto_mapped ∧
    (decideMappingResult svcDefault [mkCand "A" 0.9, mkCand "B" 0.82]
        sampleLine).status = .needs_review := by
  refine ⟨?_, ?_, ?_, ?_, by with_unfolding_all decide, by with_unfolding_all decide⟩ <;>
  · rcases rest with _ | ⟨second, rest2⟩
    · by_cases h1 : top.score < svc.config.auto_map_threshold <;>
        simp [decideMappingResult, h1]
    · by_cases h1 : top.score < svc.config.auto_map_threshold <;>
        by_cases h2 : top.score - second.score < svc.config.confidence_delta <;>
        simp [decideMappingResult, h1, h2]

/-! ## C10 — the explanation's needs_review flag ignores the margin -/

/-- `calculateConfidence` never returns the pseudo-level `failed`. -/
theorem calculateConfidence_ne_failed (svc : DeterministicMappingService)
    (topScore : ℚ) (secondScore : Option ℚ) :
    calculateConfidence svc topScore secondScore ≠ .failed := by
  unfold calculateConfidence
  split_ifs <;> simp

/-- C10: on a non-empty candidate list the explanation's `needs_review`
flag equals `top.score < auto_map_threshold` alone — the margin condition is
ignored — so the 0.90/0.82 list gets status `needs_review` while its
explanation flag is `false`. -/
theorem C10_explanation_flag_ignores_margin (svc : DeterministicMappingService)
    (line : ParsedLineItem) (top : SKUCandidate) (rest : List SKUCandidate) :
    ((decideMappingResult svc (top :: rest) line).explanation.needs_review =
      decide (top.score < svc.config.auto_map_threshold)) ∧
    (decideMappingResult svc [] line).explanation.needs_review = true ∧
    ((decideMappingResult svcDefault [mkCand "A" 0.9, mkCand "B" 0.82]
        sampleLine).status = .needs_review ∧
      (decideMappingResult svcDefault [mkCand "A" 0.9, mkCand "B" 0.82]
        sampleLine).explanation.needs_review = false) := by
  refine ⟨?_, by simp [decideMappingResult, createExplanation],
    by with_unfolding_all decide, by with_unfolding_all decide⟩
  simp [decideMappingResult, createExplanation, calculateConfidence_ne_failed]

/-! ## C6 — sub-scores and total score lie in [0,1] -/

/-- Levenshtein distance is bounded by the longer input's length. -/
theorem lev_le_max (a b : List Char) : lev a b ≤ max a.length b.length := by
  induction a generalizing b with
  | nil =>
    simp only [lev, List.length_nil]
    omega
  | cons x xs ih =>
    cases b with
    | nil =>
      simp only [lev, List.length_nil, List.length_cons]
      omega
    | cons y ys =>
      simp only [lev, List.length_cons]
      by_cases hxy : x = y
      · rw [if_pos hxy]
        have h1 := ih ys
        omega
      · rw [if_neg hxy]
        have h1 := ih ys
        have h2 : min (lev xs (y :: ys)) (min (lev (x :: xs) ys) (lev xs ys)) ≤
            lev xs ys := le_trans (min_le_right _ _) (min_le_right _ _)
        omega

/-- The fuzzy sub-score lies in [0,1]. -/
theorem calculateFuzzyScore_bounds (input : String) (sku : SKU) :
    0 ≤ calculateFuzzyScore input sku ∧ calculateFuzzyScore input sku ≤ 1 := by
  simp only [calculateFuzzyScore]
  split_ifs with h
  · have hd : lev (strLower input).data (strLower sku.description).data ≤
        max (strLower input).length (strLower sku.description).length :=
      lev_le_max _ _
    have hm0 : (0 : ℚ) < (max (strLower input).length (strLower sku.description).length : ℕ) := by
      exact_mod_cast h
    have hdm : ((lev (strLower input).data (strLower sku.description).data : ℕ) : ℚ) /
        ((max (strLower input).length (strLower sku.description).length : ℕ) : ℚ) ≤ 1 := by
      rw [div_le_one hm0]
      exact_mod_cast hd
    have hdm0 : (0 : ℚ) ≤ ((lev (strLower input).data (strLower sku.description).data : ℕ) : ℚ) /
        ((max (strLower input).length (strLower sku.description).length : ℕ) : ℚ) := by
      positivity
    constructor <;> linarith
  · norm_num

/-- The size sub-score lies in [0,1]. -/
theorem calculateSizeScore_bounds (svc : DeterministicMappingService)
    (line : ParsedLineItem) (sku : SKU) :
    0 ≤ calculateSizeScore svc line sku ∧ calculateSizeScore svc line sku ≤ 1 := by
  simp only [calculateSizeScore]
  split_ifs <;> norm_num

/-- The material sub-score lies in [0,1]. -/
theorem calculateMaterialScore_bounds (line : ParsedLineItem) (sku : SKU) :
    0 ≤ calculateMaterialScore line sku ∧ calculateMaterialScore line sku ≤ 1 := by
  simp only [calculateMaterialScore]
  split_ifs <;> norm_num

/-- Each alias-loop step can only raise the running maximum. -/
theorem le_aliasAccum (inputLower : String) (st : ℚ) (e : AliasEntry) :
    st ≤ aliasAccum inputLower st e := by
  simp only [aliasAccum]
  split_ifs <;>
    first
      | exact le_refl st
      | exact le_max_left _ _
      | exact le_trans (le_max_left _ _) (le_max_left _ _)

/-- The alias fold never drops below its starting value. -/
theorem le_foldl_aliasAccum (inputLower : String) (l : List AliasEntry) (init : ℚ) :
    init ≤ l.foldl (aliasAccum inputLower) init := by
  induction l generalizing init with
  | nil => simp
  | cons e es ih =>
    rw [List.foldl_cons]
    exact le_trans (le_aliasAccum inputLower init e) (ih _)

/-- The alias sub-score lies in [0,1]. -/
theorem calculateAliasScore_bounds (svc : DeterministicMappingService)
    (input : String) (sku : SKU) :
    0 ≤ calculateAliasScore svc input sku ∧ calculateAliasScore svc input sku ≤ 1 := by
  rcases h : aliasesGet svc.aliases sku.skuCode with _ | l <;>
    simp only [calculateAliasScore, h]
  · norm_num
  · constructor
    · exact le_min (le_foldl_aliasAccum _ l 0) (by norm_num)
    · exact le_trans (min_le_right _ _) (by norm_num)

/-- C6: with nonnegative configured weights, each of the four sub-scores of
a scored candidate lies in [0,1], the total score is exactly the weighted
sum capped at 1.0, and hence the total also lies in [0,1]. -/
theorem C6_score_bounds (svc : DeterministicMappingService)
    (line : ParsedLineItem) (sku : SKU)
    (hf : 0 ≤ svc.config.fuzzy_weight) (hsz : 0 ≤ svc.config.size_weight)
    (hmw : 0 ≤ svc.config.material_weight) (haw : 0 ≤ svc.config.alias_weight) :
    (0 ≤ (scoreSKUMatch svc line sku).breakdown.fuzzy_score ∧
      (scoreSKUMatch svc line sku).breakdown.fuzzy_score ≤ 1) ∧
    (0 ≤ (scoreSKUMatch svc line sku).breakdown.size_score ∧
      (scoreSKUMatch svc line sku).breakdown.size_score ≤ 1) ∧
    (0 ≤ (scoreSKUMatch svc line sku).breakdown.material_score ∧
      (scoreSKUMatch svc line sku).breakdown.material_score ≤ 1) ∧
    (0 ≤ (scoreSKUMatch svc line sku).breakdown.alias_score ∧
      (scoreSKUMatch svc line sku).breakdown.alias_score ≤ 1) ∧
    (scoreSKUMatch svc line sku).score =
      min ((scoreSKUMatch svc line sku).breakdown.fuzzy_score * svc.config.fuzzy_weight +
        (scoreSKUMatch svc line sku).breakdown.size_score * svc.config.size_weight +
        (scoreSKUMatch svc line sku).breakdown.material_score * svc.config.material_weight +
        (scoreSKUMatch svc line sku).breakdown.alias_score * svc.config.alias_weight) 1.0 ∧
    (0 ≤ (scoreSKUMatch svc line sku).score ∧ (scoreSKUMatch svc line sku).score ≤ 1) := by
  have e1 : (scoreSKUMatch svc line sku).breakdown.fuzzy_score =
      calculateFuzzyScore line.input_text sku := rfl
  have e2 : (scoreSKUMatch svc line sku).breakdown.size_score =
      calculateSizeScore svc line sku := rfl
  have e3 : (scoreSKUMatch svc line sku).breakdown.material_score =
      calculateMaterialScore line sku := rfl
  have e4 : (scoreSKUMatch svc line sku).breakdown.alias_score =
      calculateAliasScore svc line.input_text sku := rfl
  have e5 : (scoreSKUMatch svc line sku).score =
      min (calculateFuzzyScore line.input_text sku * svc.config.fuzzy_weight +
        calculateSizeScore svc line sku * svc.config.size_weight +
        calculateMaterialScore line sku * svc.config.material_weight +
        calculateAliasScore svc line.input_text sku * svc.config.alias_weight) 1.0 := rfl
  have hfz := calculateFuzzyScore_bounds line.input_text sku
  have hsb := calculateSizeScore_bounds svc line sku
  have hmb := calculateMaterialScore_bounds line sku
  have hab := calculateAliasScore_bounds svc line.input_text sku
  have hsum : 0 ≤ calculateFuzzyScore line.input_text sku * svc.config.fuzzy_weight +
      calculateSizeScore svc line sku * svc.config.size_weight +
      calculateMaterialScore line sku * svc.config.material_weight +
      calculateAliasScore svc line.input_text sku * svc.config.alias_weight := by
    have := mul_nonneg hfz.1 hf
    have := mul_nonneg hsb.1 hsz
    have := mul_nonneg hmb.1 hmw
    have := mul_nonneg hab.1 haw
    linarith
  refine ⟨by rw [e1]; exact hfz, by rw [e2]; exact hsb, by rw [e3]; exact hmb,
    by rw [e4]; exact hab, by rw [e5, e1, e2, e3, e4], ?_, ?_⟩
  · rw [e5]
    exact le_min hsum (by norm_num)
  · rw [e5]
    exact le_trans (min_le_right _ _) (by norm_num)

/-- Witness for C6: the default weights are nonnegative and a concrete
candidate's total score lies in [0,1]. -/
theorem C6_score_bounds_witness :
    (0 : ℚ) ≤ svcDefault.config.fuzzy_weight ∧
    (0 ≤ (scoreSKUMatch svcDefault sampleLine (sampleSKU "A")).score ∧
      (scoreSKUMatch svcDefault sampleLine (sampleSKU "A")).score ≤ 1) :=
  ⟨by with_unfolding_all decide,
   (C6_score_bounds svcDefault sampleLine (sampleSKU "A")
      (by with_unfolding_all decide) (by with_unfolding_all decide)
      (by with_unfolding_all decide) (by with_unfolding_all decide)).2.2.2.2.2⟩

/-! ## C3 — material hard constraint and the CFP hierarchy -/

/-- The material-compatibility rule as the claim words it: exact match
against the SKU's material or alternate material, or, for the Corrugated
Flexible Pipe family, FRPP/FR against a PP (or alternate-FRPP) entry, and
PP against a PP entry.  (Spec-following definition, compared with
`isMaterialCompatible`.) -/
def materialCompatSpec (inputMaterial : String) (sku : SKU) : Bool :=
  let input := strUpper inputMaterial
  let m := strUpper sku.material
  let alt := sku.altMaterial.map strUpper
  decide (input = m ∨ alt = some input) ||
  (decide (sku.productFamily = "Corrugated Flexible Pipe") &&
    (decide ((input = "FRPP" ∨ input = "FR") ∧ (m = "PP" ∨ alt = some "FRPP")) ||
     decide (input = "PP" ∧ m = "PP")))

/-- Corrugated-Flexible-Pipe SKU in material PP. -/
def skuCFP : SKU :=
  { skuCode := "CFP25", productFamily := "Corrugated Flexible Pipe"
    description := "corrugated flexible pipe", material := "PP" }

/-- A corrugated line normalized to material FR. -/
def lineFR : ParsedLineItem :=
  { input_text := "corrugated pipe", normalized := { material := some "FR" } }

/-- A corrugated line normalized to material PVC. -/
def linePVC : ParsedLineItem :=
  { input_text := "corrugated pipe", normalized := { material := some "PVC" } }

/-- C3: when both sides carry a truthy material, passing the hard-constraint
filter forces material compatibility; compatibility is exactly the claim's
rule (exact match or the documented CFP hierarchy); and concretely, an FR
line passes the filter against the PP corrugated SKU while a PVC line is
filtered out. -/
theorem C3_material_hard_constraint (svc : DeterministicMappingService)
    (line : ParsedLineItem) (sku : SKU) (inputFamily : String)
    (hm : optStrTruthy line.normalized.material = true) (hs : sku.material ≠ "")
    (hp : passesHardConstraints svc line sku inputFamily = true) :
    isMaterialCompatible (line.normalized.material.getD "") sku = true ∧
    (∀ input : String, ∀ sku2 : SKU,
      isMaterialCompatible input sku2 = materialCompatSpec input sku2) ∧
    passesHardConstraints svcDefault lineFR skuCFP "Corrugated Flexible Pipe" = true ∧
    passesHardConstraints svcDefault linePVC skuCFP "Corrugated Flexible Pipe" = false := by
  refine ⟨?_, ?_, by decide, by decide⟩
  · by_cases hcompat : isMaterialCompatible (line.normalized.material.getD "") sku = true
    · exact hcompat
    · exfalso
      have hfalse : passesHardConstraints svc line sku inputFamily = false := by
        rw [passesHardConstraints]
        rw [Bool.not_eq_true] at hcompat
        split_ifs <;> simp_all
      rw [hfalse] at hp
      cases hp
  · intro input sku2
    simp only [isMaterialCompatible, materialCompatSpec]
    split_ifs with h1 h2 h3 h4 h5 <;> simp_all
    tauto

/-- Witness for C3: the FR line is admissible against the PP corrugated SKU
and indeed material-compatible. -/
theorem C3_material_hard_constraint_witness :
    optStrTruthy lineFR.normalized.material = true ∧
    isMaterialCompatible (lineFR.normalized.material.getD "") skuCFP = true :=
  ⟨by decide, (C3_material_hard_constraint svcDefault lineFR skuCFP
      "Corrugated Flexible Pipe" (by decide) (by decide) (by decide)).1⟩

end SkuMatching
